import Mathlib

/-!
# Verification of the go-bigcommerce Orders client (`bigcommerce/orders.go`)

A shallow embedding of the Orders resource client: the data model
(`Order`, `OrderListParams`, `OrderBody`, `OrderEditParams`), the
request-builder state (`Sling`, modelling the dghubble/sling builder as it
is used by this file), the query-string and JSON serialization dictated by
the Go struct tags, and the five service operations
(`List`, `Count`, `Show`, `New`, `Edit`) as functions from service state
and a world response to an operation result.

Modelling conventions:
* Go `int32`/`uint32` fields are modelled as `Int`/`Nat`; no claim
  exercises overflow, and all values appearing in the claims fit.
* Go `float32` fields are modelled as `Int`: no claim depends on
  floating-point arithmetic or formatting; the only operations the code
  performs on these fields are the zero test of `omitempty` and verbatim
  rendering, both of which the model preserves.
* Go pointer-typed optional fields (`*uint32`) are modelled as `Option Nat`.
* Go slices are modelled as `Option (List _)` where the nil/empty
  distinction is observable in `encoding/json` output (`none` = nil slice,
  which serializes as `null` when not omitted).
* Mutation of the shared `*sling.Sling` base (Go pointer aliasing) is made
  explicit: each operation returns the service state after the call.
-/

/-- JSON values, for request bodies and response bodies. Numbers are
modelled as integers (see the modelling conventions above). -/
inductive Json where
  | null : Json
  | str (s : String) : Json
  | num (n : Int) : Json
  | arr (elems : List Json) : Json
  | obj (fields : List (String × Json)) : Json
deriving Repr

/-- Lookup of a key in a JSON object's field list. Go's `encoding/json`
decoder processes fields in order and lets a later duplicate key overwrite
an earlier one, so lookup takes the LAST binding of a key. -/
def jsonLookup (fields : List (String × Json)) (key : String) : Option Json :=
  fields.reverse.lookup key

/-- Decode a JSON value expected to be a string, as `encoding/json` does for
a Go `string` field: a missing key leaves the field at its zero value `""`.
(On a type mismatch Go additionally reports an error; no claim exercises
that case, and the field value is modelled as left at zero.) -/
def jStr (fields : List (String × Json)) (key : String) : String :=
  match jsonLookup fields key with
  | some (Json.str s) => s
  | _ => ""

/-- Decode a JSON value expected to be a number into a Go integer field;
missing key leaves the zero value. -/
def jInt (fields : List (String × Json)) (key : String) : Int :=
  match jsonLookup fields key with
  | some (Json.num n) => n
  | _ => 0

/-- Modelled from the spec: `AddressEntity` is "an external billing/shipping
address structure, defined outside this core" (its Go definition is not part
of the Orders file). It is a plain struct of string fields; the only fact
the claims depend on is that it is a struct type, which `encoding/json`
never treats as empty for `omitempty`. -/
structure AddressEntity where
  FirstName : String
  LastName : String
  Street : String
deriving Repr, DecidableEq

/-- The zero value of `AddressEntity`. -/
def AddressEntity.zero : AddressEntity := ⟨"", "", ""⟩

/-- `encoding/json` serialization of `AddressEntity`: every field is a
plain `string` field with no `omitempty`, so all keys are always present. -/
def encodeAddressEntity (a : AddressEntity) : Json :=
  Json.obj [("first_name", Json.str a.FirstName),
            ("last_name", Json.str a.LastName),
            ("street", Json.str a.Street)]

/-- Decode an `AddressEntity` from a JSON value (object fields read as
strings, anything else gives the zero value). -/
def decodeAddressEntity : Json → AddressEntity
  | Json.obj fs => ⟨jStr fs "first_name", jStr fs "last_name", jStr fs "street"⟩
  | _ => AddressEntity.zero

/-- `Order` from `orders.go`: the read-model of an order. Field names and
JSON keys follow the Go struct tags verbatim — including the misspelled
`counpon_discount` tag on `CouponDiscount`. Monetary fields are Go
`string` fields. -/
structure Order where
  ID : Int
  CustomerID : Int
  DateCreated : String
  DateModified : String
  DateShipped : String
  StatusID : Int
  Status : String
  HandlingCostExTax : String
  HandlingCostIncTax : String
  HandlingCostTax : String
  ShippingCostExTax : String
  ShippingCostIncTax : String
  ShippingCostTax : String
  SubTotalExTax : String
  SubTotalIncTax : String
  SubTotalTax : String
  TotalExTax : String
  TotalIncTax : String
  TotalTax : String
  BaseShippingCost : String
  ItemsTotal : Int
  PaymentMethod : String
  PaymentStatus : String
  IPAddress : String
  CurrencyID : Int
  CurrencyCode : String
  StaffNotes : String
  CustomerMessage : String
  DiscountAmount : String
  CouponDiscount : String
  ShippingAddressCount : Int
  BillingAddress : AddressEntity
deriving Repr, DecidableEq

/-- The zero value of `Order` (what Go's `new(Order)` allocates). -/
def Order.zero : Order :=
  ⟨0, 0, "", "", "", 0, "", "", "", "", "", "", "", "", "", "", "", "", "",
   "", 0, "", "", "", 0, "", "", "", "", "", 0, AddressEntity.zero⟩

/-- `encoding/json` decoding of an `Order` from a response body, driven by
the struct tags of `orders.go`. Unknown keys are ignored (Go default);
missing keys leave the corresponding field at its zero value. In
particular `CouponDiscount` is read from the tag `counpon_discount`
exactly as written in the source. -/
def decodeOrder : Json → Order
  | Json.obj fs =>
    { ID := jInt fs "id"
      CustomerID := jInt fs "customer_id"
      DateCreated := jStr fs "date_created"
      DateModified := jStr fs "date_modified"
      DateShipped := jStr fs "date_shipped"
      StatusID := jInt fs "status_id"
      Status := jStr fs "status"
      HandlingCostExTax := jStr fs "handling_cost_ex_tax"
      HandlingCostIncTax := jStr fs "handling_cost_inc_tax"
      HandlingCostTax := jStr fs "handling_cost_tax"
      ShippingCostExTax := jStr fs "shipping_cost_ex_tax"
      ShippingCostIncTax := jStr fs "shipping_cost_inc_tax"
      ShippingCostTax := jStr fs "shipping_cost_tax"
      SubTotalExTax := jStr fs "subtotal_ex_tax"
      SubTotalIncTax := jStr fs "subtotal_inc_tax"
      SubTotalTax := jStr fs "subtotal_tax"
      TotalExTax := jStr fs "total_ex_tax"
      TotalIncTax := jStr fs "total_inc_tax"
      TotalTax := jStr fs "total_tax"
      BaseShippingCost := jStr fs "base_shipping_cost"
      ItemsTotal := jInt fs "items_total"
      PaymentMethod := jStr fs "payment_method"
      PaymentStatus := jStr fs "payment_status"
      IPAddress := jStr fs "ip_address"
      CurrencyID := jInt fs "currency_id"
      CurrencyCode := jStr fs "currency_code"
      StaffNotes := jStr fs "staff_notes"
      CustomerMessage := jStr fs "customer_message"
      DiscountAmount := jStr fs "discount_amount"
      CouponDiscount := jStr fs "counpon_discount"
      ShippingAddressCount := jInt fs "shipping_address_count"
      BillingAddress := decodeAddressEntity
        ((jsonLookup fs "billing_address").getD Json.null) }
  | _ => Order.zero

/-- `Orders` from `orders.go`: a list of `Order`. -/
abbrev Orders := List Order

/-- Decoding a response body into `Orders`. A Go nil slice destination
filled from a JSON array gets the decoded elements; any other body leaves
the zero (nil) slice, modelled as `[]`. -/
def decodeOrders : Json → Orders
  | Json.arr xs => xs.map decodeOrder
  | _ => ([] : List Order)

/-- Modelled from the spec: `Count` is "a wrapper type holding an integer
result count for list-style queries"; its Go definition lives outside the
Orders file. -/
structure Count where
  count : Int
deriving Repr, DecidableEq

/-- The zero value of `Count` (what `new(Count)` allocates). -/
def Count.zero : Count := ⟨0⟩

/-- Decode a `Count` from a response body. -/
def decodeCount : Json → Count
  | Json.obj fs => ⟨jInt fs "count"⟩
  | _ => Count.zero

/-- Modelled from the spec: `APIError` is the "structured error payload
returned by the platform API on failure"; its Go definition lives outside
the Orders file. It carries a status code and a message. -/
structure APIError where
  status : Int
  message : String
deriving Repr, DecidableEq

/-- The zero (empty) `APIError`, meaning "no API-reported error". -/
def APIError.zero : APIError := ⟨0, ""⟩

/-- Decode an `APIError` from a non-2xx response body. -/
def decodeAPIError : Json → APIError
  | Json.obj fs => ⟨jInt fs "status", jStr fs "message"⟩
  | _ => APIError.zero

/-- `OrderListParams` from `orders.go`: the query filter parameters of
`List` and `Count`. `CustomerID` and `StatusID` are Go `*uint32`
(modelled `Option Nat`); `MinTotal`/`MaxTotal` are `float32` (modelled
`Int`, see the conventions). Every field is tagged `omitempty`. -/
structure OrderListParams where
  Page : Int
  Limit : Int
  Sort' : String
  MinID : Int
  MaxID : Int
  MinTotal : Int
  MaxTotal : Int
  CustomerID : Option Nat
  Email : String
  StatusID : Option Nat
  PaymentMethod : String
deriving Repr, DecidableEq

/-- The zero value of `OrderListParams`. -/
def OrderListParams.zero : OrderListParams :=
  ⟨0, 0, "", 0, 0, 0, 0, none, "", none, ""⟩

/-- go-querystring encoding of one `omitempty` numeric field: omitted when
zero, otherwise rendered in decimal. -/
def qvInt (key : String) (n : Int) : List (String × String) :=
  if n = 0 then [] else [(key, toString n)]

/-- go-querystring encoding of one `omitempty` string field: omitted when
empty. -/
def qvStr (key : String) (s : String) : List (String × String) :=
  if s = "" then [] else [(key, s)]

/-- go-querystring encoding of one `omitempty` pointer field: a nil pointer
is empty and omitted; a non-nil pointer is dereferenced and rendered, so a
pointer to 0 yields the value "0". -/
def qvPtr (key : String) : Option Nat → List (String × String)
  | none => []
  | some n => [(key, toString n)]

/-- go-querystring (`url` struct tags) encoding of `OrderListParams`,
field by field in declaration order. -/
def queryValues (p : OrderListParams) : List (String × String) :=
  qvInt "page" p.Page ++ qvInt "limit" p.Limit ++ qvStr "sort" p.Sort' ++
  qvInt "min_id" p.MinID ++ qvInt "max_id" p.MaxID ++
  qvInt "min_total" p.MinTotal ++ qvInt "max_total" p.MaxTotal ++
  qvPtr "customer_id" p.CustomerID ++ qvStr "email" p.Email ++
  qvPtr "status_id" p.StatusID ++ qvStr "payment_method" p.PaymentMethod

/-- `OrderProduct` from `orders.go`: a line item of an `OrderBody`.
`PriceIncTax`/`PriceExTax` are `float32` (modelled `Int`). -/
structure OrderProduct where
  ProductID : Int
  ProductName : String
  Quantity : Int
  PriceIncTax : Int
  PriceExTax : Int
deriving Repr, DecidableEq

/-- One `omitempty` JSON numeric field: omitted at zero. -/
def jfInt (key : String) (n : Int) : List (String × Json) :=
  if n = 0 then [] else [(key, Json.num n)]

/-- One `omitempty` JSON string field: omitted when empty. -/
def jfStr (key : String) (s : String) : List (String × Json) :=
  if s = "" then [] else [(key, Json.str s)]

/-- `encoding/json` serialization of `OrderProduct` per its struct tags:
`product_id`, `name`, `price_inc_tax`, `price_ex_tax` are `omitempty`;
`quantity` is always present. -/
def encodeOrderProduct (p : OrderProduct) : Json :=
  Json.obj (jfInt "product_id" p.ProductID ++ jfStr "name" p.ProductName ++
    [("quantity", Json.num p.Quantity)] ++
    jfInt "price_inc_tax" p.PriceIncTax ++ jfInt "price_ex_tax" p.PriceExTax)

/-- `OrderBody` from `orders.go`: the write-model for order creation.
`CustomerID`/`StatusID` are `*uint32` WITHOUT `omitempty`; the cost fields
are `float32` with `omitempty`; `Products` has no `omitempty` while
`ShippingAddresses` has it. Slices are `Option (List _)`: `none` is a Go
nil slice. -/
structure OrderBody where
  ExternalSource : String
  CustomerID : Option Nat
  StatusID : Option Nat
  BillingAddress : AddressEntity
  Products : Option (List OrderProduct)
  ShippingCostIncTax : Int
  ShippingCostExTax : Int
  HandlingCostIncTax : Int
  HandlingCostExTax : Int
  ShippingAddresses : Option (List AddressEntity)
  CustomerMessage : String
  StaffNotes : String
deriving Repr, DecidableEq

/-- The zero value of `OrderBody`. -/
def OrderBody.zero : OrderBody :=
  ⟨"", none, none, AddressEntity.zero, none, 0, 0, 0, 0, none, "", ""⟩

/-- A Go `*uint32` field without `omitempty`: always present, `null` for a
nil pointer. -/
def jsonOfPtr : Option Nat → Json
  | none => Json.null
  | some n => Json.num (Int.ofNat n)

/-- A Go slice field without `omitempty`: always present, `null` for a nil
slice. -/
def jsonOfSlice (enc : α → Json) : Option (List α) → Json
  | none => Json.null
  | some xs => Json.arr (xs.map enc)

/-- An `omitempty` slice field: `encoding/json` omits it when the slice has
length 0, which covers both a nil slice and an empty one. -/
def jfSlice (key : String) (enc : α → Json) : Option (List α) → List (String × Json)
  | none => []
  | some [] => []
  | some xs => [(key, Json.arr (xs.map enc))]

/-- The field list of the `encoding/json` serialization of `OrderBody`,
per its struct tags. Fields without `omitempty` (`external_source`,
`customer_id`, `status_id`, `billing_address`, `products`,
`customer_message`, `staff_notes`) are always emitted, with nil pointers
and nil slices emitted as `null`; only the cost fields and
`shipping_addresses` carry `omitempty`. -/
def orderBodyFields (b : OrderBody) : List (String × Json) :=
  [("external_source", Json.str b.ExternalSource),
   ("customer_id", jsonOfPtr b.CustomerID),
   ("status_id", jsonOfPtr b.StatusID),
   ("billing_address", encodeAddressEntity b.BillingAddress),
   ("products", jsonOfSlice encodeOrderProduct b.Products)] ++
    jfInt "shipping_cost_inc_tax" b.ShippingCostIncTax ++
    jfInt "shipping_cost_ex_tax" b.ShippingCostExTax ++
    jfInt "handling_cost_inc_tax" b.HandlingCostIncTax ++
    jfInt "handling_cost_ex_tax" b.HandlingCostExTax ++
    jfSlice "shipping_addresses" encodeAddressEntity b.ShippingAddresses ++
    [("customer_message", Json.str b.CustomerMessage),
     ("staff_notes", Json.str b.StaffNotes)]

/-- `encoding/json` serialization of `OrderBody`. -/
def encodeOrderBody (b : OrderBody) : Json :=
  Json.obj (orderBodyFields b)

/-- `OrderEditParams` from `orders.go`: the partial-update payload of
`Edit`. Every field carries `omitempty`, including the struct-typed
`billing_address`. -/
structure OrderEditParams where
  CustomerID : Option Nat
  StatusID : Option Nat
  IPAddress : String
  StaffNotes : String
  CustomerMessage : String
  BillingAddress : AddressEntity
deriving Repr, DecidableEq

/-- The zero value of `OrderEditParams`. -/
def OrderEditParams.zero : OrderEditParams :=
  ⟨none, none, "", "", "", AddressEntity.zero⟩

/-- An `omitempty` pointer field in JSON: a nil pointer is omitted, a
pointer to 0 is emitted as the number 0. -/
def jfPtr (key : String) : Option Nat → List (String × Json)
  | none => []
  | some n => [(key, Json.num (Int.ofNat n))]

/-- `encoding/json` serialization of `OrderEditParams` per its struct tags.
Critically, `billing_address` is tagged `omitempty` but has a struct type,
and Go's `encoding/json` never considers a struct value empty: the
`omitempty` on `billing_address` is a no-op and the key is ALWAYS
emitted, zero value or not. -/
def encodeOrderEditParams (p : OrderEditParams) : Json :=
  Json.obj (jfPtr "customer_id" p.CustomerID ++ jfPtr "status_id" p.StatusID ++
    jfStr "ip_address" p.IPAddress ++ jfStr "staff_notes" p.StaffNotes ++
    jfStr "customer_message" p.CustomerMessage ++
    [("billing_address", encodeAddressEntity p.BillingAddress)])

/-- A request URL, modelled structurally: the directory segments (the part
of the path up to and including the last slash) and the final segment
("" when the URL ends in a slash). This captures exactly the shapes of
RFC 3986 reference resolution that `sling.Path` exercises in `orders.go`:
the references are `"orders/"`, `"count"`, a decimal id, and `""`. -/
structure Url where
  dir : List String
  file : String
deriving Repr, DecidableEq

/-- `url.ResolveReference` as used through `sling.Path` in this file: an
empty reference leaves the URL unchanged; a reference ending in a slash
becomes a new directory segment with an empty final segment; any other
(single-segment, relative) reference replaces the final segment. (The
tests are phrased on `String.data` — the underlying character list — so
that they compute by definitional unfolding.) -/
def Url.resolve (u : Url) (ref : String) : Url :=
  if ref.data = [] then u
  else if ref.data.getLast? = some '/' then ⟨u.dir ++ [⟨ref.data.dropLast⟩], ""⟩
  else ⟨u.dir, ref⟩

/-- Render a `Url` as the path string it stands for. -/
def Url.render (u : Url) : String :=
  String.join (u.dir.map (fun seg => seg ++ "/")) ++ u.file

/-- The JSON body a sling can carry: `BodyJSON` in `orders.go` receives
either a `*OrderBody` (in `New`) or a `*OrderEditParams` (in `Edit`). -/
inductive SlingBody where
  | orderBody (b : OrderBody) : SlingBody
  | editParams (p : OrderEditParams) : SlingBody
deriving Repr, DecidableEq

/-- Serialize the carried body with `encoding/json`. -/
def SlingBody.encode : SlingBody → Json
  | orderBody b => encodeOrderBody b
  | editParams p => encodeOrderEditParams p

/-- The dghubble/sling request builder, restricted to the state this file
uses: HTTP method, raw URL, accumulated query structs (only ever
`*OrderListParams` here) and an optional JSON body. In Go a `*Sling` is a
mutable pointer; each builder method below returns the updated value, and
whether an operation stores the update back into the shared service state
models whether the Go code called the mutating method on the shared
base pointer or on a fresh `New()` copy. -/
structure Sling where
  method : String
  rawURL : Url
  queryStructs : List OrderListParams
  bodyJSON : Option SlingBody
deriving Repr, DecidableEq

/-- `Sling.New()`: a deep-enough copy — the copy shares no mutable state
with the original (the queryStructs slice is copied), so later mutation of
the copy never affects the original. In this immutable model the copy is
the value itself. -/
def Sling.copy (s : Sling) : Sling := s

/-- `Sling.Path(path)`: resolves `path` against the current raw URL,
mutating the receiver. -/
def Sling.path (s : Sling) (p : String) : Sling :=
  { s with rawURL := s.rawURL.resolve p }

/-- `Sling.Get(pathURL)`: sets the method to GET and resolves the path,
mutating the receiver. -/
def Sling.get (s : Sling) (p : String) : Sling :=
  { s.path p with method := "GET" }

/-- `Sling.Post(pathURL)`: sets the method to POST and resolves the path,
mutating the receiver. -/
def Sling.post (s : Sling) (p : String) : Sling :=
  { s.path p with method := "POST" }

/-- `Sling.Put(pathURL)`: sets the method to PUT and resolves the path,
mutating the receiver. -/
def Sling.put (s : Sling) (p : String) : Sling :=
  { s.path p with method := "PUT" }

/-- `Sling.QueryStruct(queryStruct)`: appends the (non-nil) query struct to
the receiver's list, mutating the receiver. -/
def Sling.queryStruct (s : Sling) (q : OrderListParams) : Sling :=
  { s with queryStructs := s.queryStructs ++ [q] }

/-- `Sling.BodyJSON(body)`: stores the (non-nil) JSON body, mutating the
receiver. -/
def Sling.bodyJSON' (s : Sling) (b : SlingBody) : Sling :=
  { s with bodyJSON := some b }

/-- The single HTTP request a sling builds (`Sling.Request()`): method, URL,
the query key/value pairs encoded from every accumulated query struct, and
the serialized JSON body if one was set. -/
structure Request where
  method : String
  url : Url
  query : List (String × String)
  body : Option Json
deriving Repr

def Sling.buildRequest (s : Sling) : Request :=
  { method := s.method
    url := s.rawURL
    query := (s.queryStructs.map queryValues).flatten
    body := s.bodyJSON.map SlingBody.encode }

/-- What the world answers to the single HTTP round trip of a call: either
a transport-level failure (network/timeout/serialization, carrying an
error message) or an HTTP response with a status code and a JSON body. -/
inductive WorldResponse where
  | transportFailure (msg : String) : WorldResponse
  | http (status : Nat) (body : Json) : WorldResponse
deriving Repr

/-- The raw `*http.Response` handed back to the caller. -/
structure HttpResponse where
  status : Nat
  body : Json
deriving Repr

/-- 2xx success statuses. -/
def is2xx (status : Nat) : Bool := 200 ≤ status && status < 300

/-- The outcome of the shared request executor: the populated success
destination, the populated API-error destination, the raw response, and
the transport-level error if any. -/
structure PerformOutcome (α : Type) where
  successDest : α
  errorDest : APIError
  response : Option HttpResponse
  transportErr : Option String

/-- Modelled from the spec: `performRequest(ctx, preparedRequest,
httpClient, successDest, errorDest)` is the generic request executor
provided by the surrounding client library (not under the Orders file).
It issues the single prepared request; on a transport-level failure it
returns that error with both destinations untouched (zero) and no
response; on a 2xx response it decodes the body into the success
destination; on a non-2xx response it decodes the body into the error
destination and the success destination remains a zero value. -/
def performRequest (decodeSuccess : Json → α) (zeroDest : α)
    (world : WorldResponse) : PerformOutcome α :=
  match world with
  | WorldResponse.transportFailure msg =>
    ⟨zeroDest, APIError.zero, none, some msg⟩
  | WorldResponse.http status body =>
    if is2xx status then
      ⟨decodeSuccess body, APIError.zero, some ⟨status, body⟩, none⟩
    else
      ⟨zeroDest, decodeAPIError body, some ⟨status, body⟩, none⟩

/-- The error value a call returns: either the transport-level error or
the API-reported error — a single selection, never both. -/
inductive BigcommerceError where
  | transport (msg : String) : BigcommerceError
  | api (e : APIError) : BigcommerceError
deriving Repr, DecidableEq

/-- Modelled from the spec: `relevantError(transportErr, apiErr)` is the
error-relevance selector of the surrounding client library (not under the
Orders file). It surfaces a transport-level failure when one occurred,
otherwise the API-reported error when its payload is non-empty, otherwise
no error at all. -/
def relevantError (httpError : Option String) (apiError : APIError) :
    Option BigcommerceError :=
  match httpError with
  | some msg => some (BigcommerceError.transport msg)
  | none =>
    if apiError = APIError.zero then none
    else some (BigcommerceError.api apiError)

/-- `OrderService` from `orders.go`: it stores the shared sling base
configuration (the HTTP client carries no observable state for these
claims and is not modelled as data). -/
structure OrderService where
  sling : Sling
deriving Repr, DecidableEq

/-- `newOrderService(sling, httpClient)`: stores `sling.Path("orders/")`
as the service's base. -/
def newOrderService (base : Sling) : OrderService :=
  ⟨base.path "orders/"⟩

/-- Modelled from the spec: the surrounding client library hands
`newOrderService` its base sling, configured with the API base URL; list
retrieval is a plain GET, so the base method is GET, and the base carries
no query structs or body. Parameterized by the base URL's directory
segments. -/
def clientBase (dir : List String) : Sling :=
  ⟨"GET", ⟨dir, ""⟩, [], none⟩

/-- The observable outcome of one operation call: the single request it
issued, the success-payload pointer it returns (`some` = non-nil), the
raw response, the selected error, and the service state after the call
(capturing any mutation of the shared sling base). -/
structure OpResult (α : Type) where
  request : Request
  payload : Option α
  response : Option HttpResponse
  error : Option BigcommerceError
  service : OrderService

/-- `OrderService.List`: `performRequest(ctx, s.sling.New().QueryStruct(params),
s.httpClient, orders, apiError)` then `relevantError(err, *apiError)`.
The builder methods act on a fresh `New()` copy, so the shared base is
left unchanged. -/
def OrderService.list (s : OrderService) (params : OrderListParams)
    (world : WorldResponse) : OpResult Orders :=
  let sl := (s.sling.copy).queryStruct params
  let out := performRequest decodeOrders ([] : List Order) world
  { request := sl.buildRequest
    payload := some out.successDest
    response := out.response
    error := relevantError out.transportErr out.errorDest
    service := s }

/-- `OrderService.Count`: `performRequest(ctx, s.sling.Get("count").QueryStruct(params),
s.httpClient, count, apiError)` then `relevantError(err, *apiError)`.
NOTE: unlike the other four operations there is no `.New()` — `Get` and
`QueryStruct` mutate the SHARED base sling in place, so the mutated sling
is stored back into the service state. -/
def OrderService.count (s : OrderService) (params : OrderListParams)
    (world : WorldResponse) : OpResult Count :=
  let sl := (s.sling.get "count").queryStruct params
  let out := performRequest decodeCount Count.zero world
  { request := sl.buildRequest
    payload := some out.successDest
    response := out.response
    error := relevantError out.transportErr out.errorDest
    service := ⟨sl⟩ }

/-- `OrderService.Show`: `performRequest(ctx, s.sling.New().Get(fmt.Sprintf("%d", id)),
s.httpClient, order, apiError)` then `relevantError(err, *apiError)`.
Acts on a fresh copy; the id is rendered in decimal. -/
def OrderService.show (s : OrderService) (id : Int)
    (world : WorldResponse) : OpResult Order :=
  let sl := (s.sling.copy).get (toString id)
  let out := performRequest decodeOrder Order.zero world
  { request := sl.buildRequest
    payload := some out.successDest
    response := out.response
    error := relevantError out.transportErr out.errorDest
    service := s }

/-- `OrderService.New`: `performRequest(ctx, s.sling.New().Post("").BodyJSON(body),
s.httpClient, order, apiError)` then `relevantError(err, *apiError)`.
Acts on a fresh copy; `Post("")` resolves the empty reference, leaving
the URL unchanged. -/
def OrderService.new' (s : OrderService) (body : OrderBody)
    (world : WorldResponse) : OpResult Order :=
  let sl := ((s.sling.copy).post "").bodyJSON' (SlingBody.orderBody body)
  let out := performRequest decodeOrder Order.zero world
  { request := sl.buildRequest
    payload := some out.successDest
    response := out.response
    error := relevantError out.transportErr out.errorDest
    service := s }

/-- `OrderService.Edit`: `performRequest(ctx, s.sling.New().Put(fmt.Sprintf("%d", id)).BodyJSON(params),
s.httpClient, order, apiError)` then `relevantError(err, *apiError)`.
Acts on a fresh copy; the id is rendered in decimal. -/
def OrderService.edit (s : OrderService) (id : Int) (params : OrderEditParams)
    (world : WorldResponse) : OpResult Order :=
  let sl := ((s.sling.copy).put (toString id)).bodyJSON' (SlingBody.editParams params)
  let out := performRequest decodeOrder Order.zero world
  { request := sl.buildRequest
    payload := some out.successDest
    response := out.response
    error := relevantError out.transportErr out.errorDest
    service := s }

/-- All query key/value pairs carried under a given key (empty = the key is
omitted from the query string entirely). -/
def queryAt (q : List (String × String)) (key : String) : List (String × String) :=
  q.filter (fun kv => kv.1 == key)

/-- All fields of a JSON object's field list carried under a given key
(empty = the key is absent from the serialized body). -/
def bodyAt (fs : List (String × Json)) (key : String) : List (String × Json) :=
  fs.filter (fun kv => kv.1 == key)

/-- C1: the four operations built on `s.sling.New()` leave the service
state untouched; `Count`, built directly on the shared base (`s.sling.Get("count")`
with no `.New()`), mutates it on EVERY call — contradicting the spec's
"each call builds a fresh request from a shared immutable base
configuration ... and mutates no shared mutable state". In particular,
after one `Count` on a fresh service the next `List` issues its request
against `orders/count` (the base path `Count` left behind), not `orders/`,
and it carries the query parameters of the earlier `Count` call. -/
theorem count_call_mutates_shared_sling_base :
    (∀ (s : OrderService) (p : OrderListParams) (w : WorldResponse),
      (s.list p w).service = s) ∧
    (∀ (s : OrderService) (id : Int) (w : WorldResponse),
      (s.show id w).service = s) ∧
    (∀ (s : OrderService) (b : OrderBody) (w : WorldResponse),
      (s.new' b w).service = s) ∧
    (∀ (s : OrderService) (id : Int) (p : OrderEditParams) (w : WorldResponse),
      (s.edit id p w).service = s) ∧
    (∀ (s : OrderService) (p : OrderListParams) (w : WorldResponse),
      (s.count p w).service ≠ s) ∧
    (∀ (d : List String) (p q : OrderListParams) (w w' : WorldResponse),
      ((((newOrderService (clientBase d)).count p w).service.list q w').request.url
          = ⟨d ++ ["orders"], "count"⟩ ∧
        (((newOrderService (clientBase d)).count p w).service.list q w').request.query
          = queryValues p ++ queryValues q)) := by
  refine ⟨fun s p w => rfl, fun s id w => rfl, fun s b w => rfl, fun s id p w => rfl,
    ?_, ?_⟩
  · intro s p w h
    have hlen := congrArg (fun t => t.sling.queryStructs.length) h
    simp [OrderService.count, Sling.get, Sling.path, Sling.queryStruct] at hlen
  · intro d p q w w'
    constructor
    · rfl
    · simp [OrderService.count, OrderService.list, Sling.get, Sling.path,
        Sling.queryStruct, Sling.copy, Sling.buildRequest, newOrderService,
        clientBase]

/-- C9: every operation returns a freshly allocated success-payload pointer
(`new(Orders)` / `new(Count)` / `new(Order)`), so the payload handed back
to the caller is non-nil for every service state and every world response,
including when the call returns a non-nil error. -/
theorem payload_pointer_always_non_nil :
    (∀ (s : OrderService) (p : OrderListParams) (w : WorldResponse),
      (s.list p w).payload.isSome = true) ∧
    (∀ (s : OrderService) (p : OrderListParams) (w : WorldResponse),
      (s.count p w).payload.isSome = true) ∧
    (∀ (s : OrderService) (id : Int) (w : WorldResponse),
      (s.show id w).payload.isSome = true) ∧
    (∀ (s : OrderService) (b : OrderBody) (w : WorldResponse),
      (s.new' b w).payload.isSome = true) ∧
    (∀ (s : OrderService) (id : Int) (p : OrderEditParams) (w : WorldResponse),
      (s.edit id p w).payload.isSome = true) :=
  ⟨fun _ _ _ => rfl, fun _ _ _ => rfl, fun _ _ _ => rfl, fun _ _ _ => rfl,
   fun _ _ _ _ => rfl⟩

/-- C3: every operation's returned error is a single selection between the
transport-level error and the API-error payload (a value of the sum type
`BigcommerceError`, so the two are never both surfaced): a transport
failure is surfaced as the transport error; otherwise the API-error
payload is surfaced exactly when it is non-empty; when the transport
error is absent and the API-error payload is empty (in particular on any
2xx response) the call returns a nil error. -/
theorem error_is_single_selection :
    (∀ (s : OrderService) (p : OrderListParams) (m : String),
      (s.list p (WorldResponse.transportFailure m)).error
        = some (BigcommerceError.transport m)) ∧
    (∀ (s : OrderService) (p : OrderListParams) (st : Nat) (b : Json),
      (s.list p (WorldResponse.http st b)).error
        = if is2xx st = true then none
          else if decodeAPIError b = APIError.zero then none
          else some (BigcommerceError.api (decodeAPIError b))) ∧
    (∀ (s : OrderService) (p : OrderListParams) (m : String),
      (s.count p (WorldResponse.transportFailure m)).error
        = some (BigcommerceError.transport m)) ∧
    (∀ (s : OrderService) (p : OrderListParams) (st : Nat) (b : Json),
      (s.count p (WorldResponse.http st b)).error
        = if is2xx st = true then none
          else if decodeAPIError b = APIError.zero then none
          else some (BigcommerceError.api (decodeAPIError b))) ∧
    (∀ (s : OrderService) (id : Int) (m : String),
      (s.show id (WorldResponse.transportFailure m)).error
        = some (BigcommerceError.transport m)) ∧
    (∀ (s : OrderService) (id : Int) (st : Nat) (b : Json),
      (s.show id (WorldResponse.http st b)).error
        = if is2xx st = true then none
          else if decodeAPIError b = APIError.zero then none
          else some (BigcommerceError.api (decodeAPIError b))) ∧
    (∀ (s : OrderService) (ob : OrderBody) (m : String),
      (s.new' ob (WorldResponse.transportFailure m)).error
        = some (BigcommerceError.transport m)) ∧
    (∀ (s : OrderService) (ob : OrderBody) (st : Nat) (b : Json),
      (s.new' ob (WorldResponse.http st b)).error
        = if is2xx st = true then none
          else if decodeAPIError b = APIError.zero then none
          else some (BigcommerceError.api (decodeAPIError b))) ∧
    (∀ (s : OrderService) (id : Int) (ep : OrderEditParams) (m : String),
      (s.edit id ep (WorldResponse.transportFailure m)).error
        = some (BigcommerceError.transport m)) ∧
    (∀ (s : OrderService) (id : Int) (ep : OrderEditParams) (st : Nat) (b : Json),
      (s.edit id ep (WorldResponse.http st b)).error
        = if is2xx st = true then none
          else if decodeAPIError b = APIError.zero then none
          else some (BigcommerceError.api (decodeAPIError b))) := by
  refine ⟨fun s p m => rfl, ?_, fun s p m => rfl, ?_, fun s id m => rfl, ?_,
    fun s ob m => rfl, ?_, fun s id ep m => rfl, ?_⟩
  · intro s p st b
    cases h2 : is2xx st <;>
      simp [OrderService.list, performRequest, relevantError, h2]
  · intro s p st b
    cases h2 : is2xx st <;>
      simp [OrderService.count, performRequest, relevantError, h2]
  · intro s id st b
    cases h2 : is2xx st <;>
      simp [OrderService.show, performRequest, relevantError, h2]
  · intro s ob st b
    cases h2 : is2xx st <;>
      simp [OrderService.new', performRequest, relevantError, h2]
  · intro s id ep st b
    cases h2 : is2xx st <;>
      simp [OrderService.edit, performRequest, relevantError, h2]

/-- C5: when the API answers with a non-2xx response whose body decodes to
a non-empty structured error payload and no transport-level failure
occurred, every operation returns the API error (not a transport error)
and its success destination is still the zero value it was allocated
with (`performRequest` and `relevantError` modelled from the spec). -/
theorem api_error_surfaced_and_payload_zero
    (st : Nat) (b : Json) (h2 : is2xx st = false)
    (hne : decodeAPIError b ≠ APIError.zero) :
    (∀ (s : OrderService) (p : OrderListParams),
      (s.list p (WorldResponse.http st b)).error
          = some (BigcommerceError.api (decodeAPIError b)) ∧
        (s.list p (WorldResponse.http st b)).payload = some ([] : List Order)) ∧
    (∀ (s : OrderService) (p : OrderListParams),
      (s.count p (WorldResponse.http st b)).error
          = some (BigcommerceError.api (decodeAPIError b)) ∧
        (s.count p (WorldResponse.http st b)).payload = some Count.zero) ∧
    (∀ (s : OrderService) (id : Int),
      (s.show id (WorldResponse.http st b)).error
          = some (BigcommerceError.api (decodeAPIError b)) ∧
        (s.show id (WorldResponse.http st b)).payload = some Order.zero) ∧
    (∀ (s : OrderService) (ob : OrderBody),
      (s.new' ob (WorldResponse.http st b)).error
          = some (BigcommerceError.api (decodeAPIError b)) ∧
        (s.new' ob (WorldResponse.http st b)).payload = some Order.zero) ∧
    (∀ (s : OrderService) (id : Int) (ep : OrderEditParams),
      (s.edit id ep (WorldResponse.http st b)).error
          = some (BigcommerceError.api (decodeAPIError b)) ∧
        (s.edit id ep (WorldResponse.http st b)).payload = some Order.zero) := by
  refine ⟨fun s p => ?_, fun s p => ?_, fun s id => ?_, fun s ob => ?_,
    fun s id ep => ?_⟩ <;>
    constructor <;>
      simp [OrderService.list, OrderService.count, OrderService.show,
        OrderService.new', OrderService.edit, performRequest, relevantError,
        h2, hne]

/-- Witness for C5: a 404 response with a structured error body, observed
through `Show` on a concrete service. -/
theorem api_error_surfaced_and_payload_zero_witness :
    ((newOrderService (clientBase ["api", "v2"])).show 42
        (WorldResponse.http 404
          (Json.obj [("status", Json.num 404), ("message", Json.str "not found")]))).error
        = some (BigcommerceError.api ⟨404, "not found"⟩) ∧
      ((newOrderService (clientBase ["api", "v2"])).show 42
        (WorldResponse.http 404
          (Json.obj [("status", Json.num 404), ("message", Json.str "not found")]))).payload
        = some Order.zero := by
  have h := (api_error_surfaced_and_payload_zero 404
    (Json.obj [("status", Json.num 404), ("message", Json.str "not found")])
    (by decide) (by decide)).2.2.1 (newOrderService (clientBase ["api", "v2"])) 42
  exact ⟨h.1, h.2⟩

theorem queryAt_append (a b : List (String × String)) (key : String) :
    queryAt (a ++ b) key = queryAt a key ++ queryAt b key :=
  List.filter_append _ _

theorem queryAt_qvInt_ne (k key : String) (n : Int) (h : (k == key) = false) :
    queryAt (qvInt k n) key = [] := by
  unfold queryAt qvInt
  split <;> simp [h]

theorem queryAt_qvStr_ne (k key s : String) (h : (k == key) = false) :
    queryAt (qvStr k s) key = [] := by
  unfold queryAt qvStr
  split <;> simp [h]

theorem queryAt_qvPtr_ne (k key : String) (o : Option Nat) (h : (k == key) = false) :
    queryAt (qvPtr k o) key = [] := by
  cases o <;> simp [queryAt, qvPtr, h]

theorem queryAt_qvPtr_self (key : String) (o : Option Nat) :
    queryAt (qvPtr key o) key = qvPtr key o := by
  cases o <;> simp [queryAt, qvPtr]

/-- Of the eleven `url`-tagged fields of `OrderListParams`, only the
`customer_id` segment can put the key `customer_id` into the query. -/
theorem queryAt_queryValues_customer (p : OrderListParams) :
    queryAt (queryValues p) "customer_id" = qvPtr "customer_id" p.CustomerID := by
  simp [queryValues, queryAt_append, queryAt_qvInt_ne, queryAt_qvStr_ne,
    queryAt_qvPtr_ne, queryAt_qvPtr_self]

/-- Of the eleven `url`-tagged fields of `OrderListParams`, only the
`status_id` segment can put the key `status_id` into the query. -/
theorem queryAt_queryValues_status (p : OrderListParams) :
    queryAt (queryValues p) "status_id" = qvPtr "status_id" p.StatusID := by
  simp [queryValues, queryAt_append, queryAt_qvInt_ne, queryAt_qvStr_ne,
    queryAt_qvPtr_ne, queryAt_qvPtr_self]

/-- On a fresh service, the query of the request `List` issues is exactly
the encoding of the caller's params. -/
theorem list_request_query (d : List String) (w : WorldResponse) (p : OrderListParams) :
    ((newOrderService (clientBase d)).list p w).request.query = queryValues p := by
  simp [OrderService.list, Sling.copy, Sling.queryStruct, Sling.buildRequest,
    newOrderService, clientBase, Sling.path]

/-- On a fresh service, the query of the request `Count` issues is exactly
the encoding of the caller's params. -/
theorem count_request_query (d : List String) (w : WorldResponse) (p : OrderListParams) :
    ((newOrderService (clientBase d)).count p w).request.query = queryValues p := by
  simp [OrderService.count, Sling.get, Sling.path, Sling.queryStruct,
    Sling.buildRequest, newOrderService, clientBase]

/-- C2: the `url:"...,omitempty"` tags on the `*uint32` fields of
`OrderListParams` make `List` and `Count` omit `customer_id`
(resp. `status_id`) from the emitted query entirely when the pointer is
nil, while a pointer to 0 puts the key into the query with the value
"0". -/
theorem query_omits_nil_pointer_and_keeps_zero (d : List String)
    (w : WorldResponse) (p : OrderListParams) :
    (p.CustomerID = none →
      queryAt ((newOrderService (clientBase d)).list p w).request.query "customer_id" = []) ∧
    (p.CustomerID = some 0 →
      ("customer_id", "0") ∈ ((newOrderService (clientBase d)).list p w).request.query) ∧
    (p.StatusID = none →
      queryAt ((newOrderService (clientBase d)).list p w).request.query "status_id" = []) ∧
    (p.StatusID = some 0 →
      ("status_id", "0") ∈ ((newOrderService (clientBase d)).list p w).request.query) ∧
    (p.CustomerID = none →
      queryAt ((newOrderService (clientBase d)).count p w).request.query "customer_id" = []) ∧
    (p.CustomerID = some 0 →
      ("customer_id", "0") ∈ ((newOrderService (clientBase d)).count p w).request.query) ∧
    (p.StatusID = none →
      queryAt ((newOrderService (clientBase d)).count p w).request.query "status_id" = []) ∧
    (p.StatusID = some 0 →
      ("status_id", "0") ∈ ((newOrderService (clientBase d)).count p w).request.query) := by
  rw [list_request_query, count_request_query]
  refine ⟨?_, ?_, ?_, ?_, ?_, ?_, ?_, ?_⟩ <;> intro h
  · rw [queryAt_queryValues_customer, h, qvPtr]
  · have hm : ("customer_id", "0") ∈ queryAt (queryValues p) "customer_id" := by
      rw [queryAt_queryValues_customer, h]
      show _ ∈ [("customer_id", toString 0)]
      rw [show toString 0 = "0" from rfl]
      exact List.mem_singleton.mpr rfl
    exact List.mem_of_mem_filter hm
  · rw [queryAt_queryValues_status, h, qvPtr]
  · have hm : ("status_id", "0") ∈ queryAt (queryValues p) "status_id" := by
      rw [queryAt_queryValues_status, h]
      show _ ∈ [("status_id", toString 0)]
      rw [show toString 0 = "0" from rfl]
      exact List.mem_singleton.mpr rfl
    exact List.mem_of_mem_filter hm
  · rw [queryAt_queryValues_customer, h, qvPtr]
  · have hm : ("customer_id", "0") ∈ queryAt (queryValues p) "customer_id" := by
      rw [queryAt_queryValues_customer, h]
      show _ ∈ [("customer_id", toString 0)]
      rw [show toString 0 = "0" from rfl]
      exact List.mem_singleton.mpr rfl
    exact List.mem_of_mem_filter hm
  · rw [queryAt_queryValues_status, h, qvPtr]
  · have hm : ("status_id", "0") ∈ queryAt (queryValues p) "status_id" := by
      rw [queryAt_queryValues_status, h]
      show _ ∈ [("status_id", toString 0)]
      rw [show toString 0 = "0" from rfl]
      exact List.mem_singleton.mpr rfl
    exact List.mem_of_mem_filter hm

/-- Witness for C2: nil pointers on a zero params value omit both keys from
a `List` query; pointers to 0 put `customer_id=0` into a `Count` query. -/
theorem query_omits_nil_pointer_and_keeps_zero_witness :
    (queryAt ((newOrderService (clientBase ["api", "v2"])).list OrderListParams.zero
        (WorldResponse.http 200 (Json.arr []))).request.query "customer_id" = []) ∧
    (("customer_id", "0") ∈ ((newOrderService (clientBase ["api", "v2"])).count
        { OrderListParams.zero with CustomerID := some 0 }
        (WorldResponse.http 200 (Json.obj []))).request.query) := by
  constructor
  · exact (query_omits_nil_pointer_and_keeps_zero ["api", "v2"]
      (WorldResponse.http 200 (Json.arr [])) OrderListParams.zero).1 rfl
  · exact (query_omits_nil_pointer_and_keeps_zero ["api", "v2"]
      (WorldResponse.http 200 (Json.obj []))
      { OrderListParams.zero with CustomerID := some 0 }).2.2.2.2.2.1 rfl

/-- C4: on a freshly constructed service each operation issues its single
request with the documented method and path — `List` GET `orders/`,
`Count` GET `orders/count`, `Show(42)` GET `orders/42` (decimal), `New`
POST `orders/`, `Edit(42, ·)` PUT `orders/42`. But because `Count` mutates
the shared base (see the Count aliasing bug), a `List` issued after a
`Count` on the same service no longer requests `orders/` — it requests
`orders/count`, so the stated path contract does not hold for every
call. -/
theorem methods_paths_fresh_service_and_after_count :
    (∀ (d : List String) (p : OrderListParams) (w : WorldResponse),
      ((newOrderService (clientBase d)).list p w).request.method = "GET" ∧
        ((newOrderService (clientBase d)).list p w).request.url = ⟨d ++ ["orders"], ""⟩) ∧
    (∀ (d : List String) (p : OrderListParams) (w : WorldResponse),
      ((newOrderService (clientBase d)).count p w).request.method = "GET" ∧
        ((newOrderService (clientBase d)).count p w).request.url
          = ⟨d ++ ["orders"], "count"⟩) ∧
    (∀ (d : List String) (w : WorldResponse),
      ((newOrderService (clientBase d)).show 42 w).request.method = "GET" ∧
        ((newOrderService (clientBase d)).show 42 w).request.url
          = ⟨d ++ ["orders"], "42"⟩) ∧
    (∀ (d : List String) (b : OrderBody) (w : WorldResponse),
      ((newOrderService (clientBase d)).new' b w).request.method = "POST" ∧
        ((newOrderService (clientBase d)).new' b w).request.url = ⟨d ++ ["orders"], ""⟩) ∧
    (∀ (d : List String) (ep : OrderEditParams) (w : WorldResponse),
      ((newOrderService (clientBase d)).edit 42 ep w).request.method = "PUT" ∧
        ((newOrderService (clientBase d)).edit 42 ep w).request.url
          = ⟨d ++ ["orders"], "42"⟩) ∧
    (∀ (d : List String) (p q : OrderListParams) (w w' : WorldResponse),
      ((((newOrderService (clientBase d)).count p w).service.list q w').request.method
          = "GET" ∧
        (((newOrderService (clientBase d)).count p w).service.list q w').request.url
          = ⟨d ++ ["orders"], "count"⟩)) :=
  ⟨fun _ _ _ => ⟨rfl, rfl⟩, fun _ _ _ => ⟨rfl, rfl⟩, fun _ _ => ⟨rfl, rfl⟩,
   fun _ _ _ => ⟨rfl, rfl⟩, fun _ _ _ => ⟨rfl, rfl⟩, fun _ _ _ _ _ => ⟨rfl, rfl⟩⟩

/-- C6: the body `Edit` transmits for a fully-unset `OrderEditParams` is
NOT empty: the nil pointers and empty strings are omitted as the spec
says, but the zero-value `billing_address` is still serialized, because
Go's `encoding/json` ignores `omitempty` on struct-typed fields. The
serialized body of `Edit(42, &OrderEditParams{})` has exactly the one key
`billing_address`, with the zero address as its value. -/
theorem edit_zero_params_still_transmits_billing_address :
    ((newOrderService (clientBase ["api", "v2"])).edit 42 OrderEditParams.zero
        (WorldResponse.http 200 (Json.obj []))).request.body
      = some (Json.obj [("billing_address",
          Json.obj [("first_name", Json.str ""), ("last_name", Json.str ""),
                    ("street", Json.str "")])]) := rfl

theorem bodyAt_append (a b : List (String × Json)) (key : String) :
    bodyAt (a ++ b) key = bodyAt a key ++ bodyAt b key :=
  List.filter_append _ _

theorem bodyAt_jfInt_ne (k key : String) (n : Int) (h : (k == key) = false) :
    bodyAt (jfInt k n) key = [] := by
  unfold bodyAt jfInt
  split <;> simp [h]

theorem bodyAt_jfSlice_ne (k key : String) (enc : AddressEntity → Json)
    (o : Option (List AddressEntity)) (h : (k == key) = false) :
    bodyAt (jfSlice k enc o) key = [] := by
  rcases o with _ | ⟨_ | ⟨x, xs⟩⟩ <;> simp [bodyAt, jfSlice, h]

/-- The serialized `OrderBody` always carries `customer_id`, with the
pointer's JSON image as its value. -/
theorem bodyAt_orderBodyFields_customer (b : OrderBody) :
    bodyAt (orderBodyFields b) "customer_id"
      = [("customer_id", jsonOfPtr b.CustomerID)] := by
  unfold orderBodyFields
  rw [bodyAt_append, bodyAt_append, bodyAt_append, bodyAt_append, bodyAt_append,
    bodyAt_append,
    bodyAt_jfInt_ne "shipping_cost_inc_tax" "customer_id" _ rfl,
    bodyAt_jfInt_ne "shipping_cost_ex_tax" "customer_id" _ rfl,
    bodyAt_jfInt_ne "handling_cost_inc_tax" "customer_id" _ rfl,
    bodyAt_jfInt_ne "handling_cost_ex_tax" "customer_id" _ rfl,
    bodyAt_jfSlice_ne "shipping_addresses" "customer_id" _ _ rfl]
  rfl

/-- The serialized `OrderBody` always carries `status_id`, with the
pointer's JSON image as its value. -/
theorem bodyAt_orderBodyFields_status (b : OrderBody) :
    bodyAt (orderBodyFields b) "status_id"
      = [("status_id", jsonOfPtr b.StatusID)] := by
  unfold orderBodyFields
  rw [bodyAt_append, bodyAt_append, bodyAt_append, bodyAt_append, bodyAt_append,
    bodyAt_append,
    bodyAt_jfInt_ne "shipping_cost_inc_tax" "status_id" _ rfl,
    bodyAt_jfInt_ne "shipping_cost_ex_tax" "status_id" _ rfl,
    bodyAt_jfInt_ne "handling_cost_inc_tax" "status_id" _ rfl,
    bodyAt_jfInt_ne "handling_cost_ex_tax" "status_id" _ rfl,
    bodyAt_jfSlice_ne "shipping_addresses" "status_id" _ _ rfl]
  rfl

theorem bodyAt_orderBodyFields_shipInc_zero (b : OrderBody)
    (h : b.ShippingCostIncTax = 0) :
    bodyAt (orderBodyFields b) "shipping_cost_inc_tax" = [] := by
  unfold orderBodyFields
  rw [bodyAt_append, bodyAt_append, bodyAt_append, bodyAt_append, bodyAt_append,
    bodyAt_append, h,
    bodyAt_jfInt_ne "shipping_cost_ex_tax" "shipping_cost_inc_tax" _ rfl,
    bodyAt_jfInt_ne "handling_cost_inc_tax" "shipping_cost_inc_tax" _ rfl,
    bodyAt_jfInt_ne "handling_cost_ex_tax" "shipping_cost_inc_tax" _ rfl,
    bodyAt_jfSlice_ne "shipping_addresses" "shipping_cost_inc_tax" _ _ rfl]
  rfl

theorem bodyAt_orderBodyFields_shipEx_zero (b : OrderBody)
    (h : b.ShippingCostExTax = 0) :
    bodyAt (orderBodyFields b) "shipping_cost_ex_tax" = [] := by
  unfold orderBodyFields
  rw [bodyAt_append, bodyAt_append, bodyAt_append, bodyAt_append, bodyAt_append,
    bodyAt_append, h,
    bodyAt_jfInt_ne "shipping_cost_inc_tax" "shipping_cost_ex_tax" _ rfl,
    bodyAt_jfInt_ne "handling_cost_inc_tax" "shipping_cost_ex_tax" _ rfl,
    bodyAt_jfInt_ne "handling_cost_ex_tax" "shipping_cost_ex_tax" _ rfl,
    bodyAt_jfSlice_ne "shipping_addresses" "shipping_cost_ex_tax" _ _ rfl]
  rfl

theorem bodyAt_orderBodyFields_handInc_zero (b : OrderBody)
    (h : b.HandlingCostIncTax = 0) :
    bodyAt (orderBodyFields b) "handling_cost_inc_tax" = [] := by
  unfold orderBodyFields
  rw [bodyAt_append, bodyAt_append, bodyAt_append, bodyAt_append, bodyAt_append,
    bodyAt_append, h,
    bodyAt_jfInt_ne "shipping_cost_inc_tax" "handling_cost_inc_tax" _ rfl,
    bodyAt_jfInt_ne "shipping_cost_ex_tax" "handling_cost_inc_tax" _ rfl,
    bodyAt_jfInt_ne "handling_cost_ex_tax" "handling_cost_inc_tax" _ rfl,
    bodyAt_jfSlice_ne "shipping_addresses" "handling_cost_inc_tax" _ _ rfl]
  rfl

theorem bodyAt_orderBodyFields_handEx_zero (b : OrderBody)
    (h : b.HandlingCostExTax = 0) :
    bodyAt (orderBodyFields b) "handling_cost_ex_tax" = [] := by
  unfold orderBodyFields
  rw [bodyAt_append, bodyAt_append, bodyAt_append, bodyAt_append, bodyAt_append,
    bodyAt_append, h,
    bodyAt_jfInt_ne "shipping_cost_inc_tax" "handling_cost_ex_tax" _ rfl,
    bodyAt_jfInt_ne "shipping_cost_ex_tax" "handling_cost_ex_tax" _ rfl,
    bodyAt_jfInt_ne "handling_cost_inc_tax" "handling_cost_ex_tax" _ rfl,
    bodyAt_jfSlice_ne "shipping_addresses" "handling_cost_ex_tax" _ _ rfl]
  rfl

theorem bodyAt_orderBodyFields_shipAddrs_nil (b : OrderBody)
    (h : b.ShippingAddresses = none) :
    bodyAt (orderBodyFields b) "shipping_addresses" = [] := by
  unfold orderBodyFields
  rw [bodyAt_append, bodyAt_append, bodyAt_append, bodyAt_append, bodyAt_append,
    bodyAt_append, h,
    bodyAt_jfInt_ne "shipping_cost_inc_tax" "shipping_addresses" _ rfl,
    bodyAt_jfInt_ne "shipping_cost_ex_tax" "shipping_addresses" _ rfl,
    bodyAt_jfInt_ne "handling_cost_inc_tax" "shipping_addresses" _ rfl,
    bodyAt_jfInt_ne "handling_cost_ex_tax" "shipping_addresses" _ rfl]
  rfl

/-- C7 counterexample: `New` with a zero `OrderBody` (nil `CustomerID` and
`StatusID`) does NOT omit `customer_id`/`status_id` from the transmitted
JSON body — their tags carry no `omitempty`, so both keys are present
with value `null`, and the other tag-less zero-value fields
(`external_source`, `billing_address`, `products`, `customer_message`,
`staff_notes`) are present too. -/
theorem new_zero_body_transmits_customer_id_null :
    ((newOrderService (clientBase ["api", "v2"])).new' OrderBody.zero
        (WorldResponse.http 200 (Json.obj []))).request.body
        = some (Json.obj
          [("external_source", Json.str ""),
           ("customer_id", Json.null),
           ("status_id", Json.null),
           ("billing_address",
             Json.obj [("first_name", Json.str ""), ("last_name", Json.str ""),
                       ("street", Json.str "")]),
           ("products", Json.null),
           ("customer_message", Json.str ""),
           ("staff_notes", Json.str "")]) ∧
      bodyAt (orderBodyFields OrderBody.zero) "customer_id"
        = [("customer_id", Json.null)] ∧
      bodyAt (orderBodyFields OrderBody.zero) "status_id"
        = [("status_id", Json.null)] :=
  ⟨rfl, rfl, rfl⟩

/-- C7 amended: the JSON body transmitted by `New` always contains
`customer_id` and `status_id` — a nil pointer is serialized as `null`
(not omitted), which still distinguishes "unset" from an explicit 0 on
the wire; only the fields tagged `omitempty` (the shipping/handling cost
fields and `shipping_addresses`) are omitted at their zero values. -/
theorem new_body_nil_pointers_serialized_as_null (d : List String)
    (w : WorldResponse) (b : OrderBody) :
    ((newOrderService (clientBase d)).new' b w).request.body
        = some (Json.obj (orderBodyFields b)) ∧
      bodyAt (orderBodyFields b) "customer_id"
        = [("customer_id", jsonOfPtr b.CustomerID)] ∧
      bodyAt (orderBodyFields b) "status_id"
        = [("status_id", jsonOfPtr b.StatusID)] ∧
      (b.ShippingCostIncTax = 0 →
        bodyAt (orderBodyFields b) "shipping_cost_inc_tax" = []) ∧
      (b.ShippingCostExTax = 0 →
        bodyAt (orderBodyFields b) "shipping_cost_ex_tax" = []) ∧
      (b.HandlingCostIncTax = 0 →
        bodyAt (orderBodyFields b) "handling_cost_inc_tax" = []) ∧
      (b.HandlingCostExTax = 0 →
        bodyAt (orderBodyFields b) "handling_cost_ex_tax" = []) ∧
      (b.ShippingAddresses = none →
        bodyAt (orderBodyFields b) "shipping_addresses" = []) :=
  ⟨rfl, bodyAt_orderBodyFields_customer b, bodyAt_orderBodyFields_status b,
   bodyAt_orderBodyFields_shipInc_zero b, bodyAt_orderBodyFields_shipEx_zero b,
   bodyAt_orderBodyFields_handInc_zero b, bodyAt_orderBodyFields_handEx_zero b,
   bodyAt_orderBodyFields_shipAddrs_nil b⟩

/-- Witness for the amended C7, at a body with an explicit-zero customer
pointer and all optional fields at their zero values. -/
theorem new_body_nil_pointers_serialized_as_null_witness :
    bodyAt (orderBodyFields { OrderBody.zero with CustomerID := some 0 })
        "customer_id" = [("customer_id", Json.num 0)] ∧
      bodyAt (orderBodyFields { OrderBody.zero with CustomerID := some 0 })
        "shipping_cost_inc_tax" = [] := by
  have h := new_body_nil_pointers_serialized_as_null ["api", "v2"]
    (WorldResponse.http 200 (Json.obj []))
    { OrderBody.zero with CustomerID := some 0 }
  exact ⟨h.2.1, h.2.2.2.1 rfl⟩

/-- C8: every monetary field of `Order` is a Go `string` field, so
decoding an API response stores the exact string found under the field's
JSON key — no numeric conversion or rounding — for all fifteen monetary
fields (handling/shipping/subtotal/total with their tax variants, base
shipping cost, discount amount, and the coupon discount, whose key is the
source's tag `counpon_discount`). -/
theorem monetary_fields_decoded_verbatim (fs : List (String × Json)) (s : String) :
    (jsonLookup fs "handling_cost_ex_tax" = some (Json.str s) →
      (decodeOrder (Json.obj fs)).HandlingCostExTax = s) ∧
    (jsonLookup fs "handling_cost_inc_tax" = some (Json.str s) →
      (decodeOrder (Json.obj fs)).HandlingCostIncTax = s) ∧
    (jsonLookup fs "handling_cost_tax" = some (Json.str s) →
      (decodeOrder (Json.obj fs)).HandlingCostTax = s) ∧
    (jsonLookup fs "shipping_cost_ex_tax" = some (Json.str s) →
      (decodeOrder (Json.obj fs)).ShippingCostExTax = s) ∧
    (jsonLookup fs "shipping_cost_inc_tax" = some (Json.str s) →
      (decodeOrder (Json.obj fs)).ShippingCostIncTax = s) ∧
    (jsonLookup fs "shipping_cost_tax" = some (Json.str s) →
      (decodeOrder (Json.obj fs)).ShippingCostTax = s) ∧
    (jsonLookup fs "subtotal_ex_tax" = some (Json.str s) →
      (decodeOrder (Json.obj fs)).SubTotalExTax = s) ∧
    (jsonLookup fs "subtotal_inc_tax" = some (Json.str s) →
      (decodeOrder (Json.obj fs)).SubTotalIncTax = s) ∧
    (jsonLookup fs "subtotal_tax" = some (Json.str s) →
      (decodeOrder (Json.obj fs)).SubTotalTax = s) ∧
    (jsonLookup fs "total_ex_tax" = some (Json.str s) →
      (decodeOrder (Json.obj fs)).TotalExTax = s) ∧
    (jsonLookup fs "total_inc_tax" = some (Json.str s) →
      (decodeOrder (Json.obj fs)).TotalIncTax = s) ∧
    (jsonLookup fs "total_tax" = some (Json.str s) →
      (decodeOrder (Json.obj fs)).TotalTax = s) ∧
    (jsonLookup fs "base_shipping_cost" = some (Json.str s) →
      (decodeOrder (Json.obj fs)).BaseShippingCost = s) ∧
    (jsonLookup fs "discount_amount" = some (Json.str s) →
      (decodeOrder (Json.obj fs)).DiscountAmount = s) ∧
    (jsonLookup fs "counpon_discount" = some (Json.str s) →
      (decodeOrder (Json.obj fs)).CouponDiscount = s) := by
  refine ⟨?_, ?_, ?_, ?_, ?_, ?_, ?_, ?_, ?_, ?_, ?_, ?_, ?_, ?_, ?_⟩ <;>
    (intro h; simp [decodeOrder, jStr, h])

/-- Witness for C8: a concrete response body carrying "9.99" under every
monetary key decodes with all fifteen fields preserved verbatim. -/
theorem monetary_fields_decoded_verbatim_witness :
    (decodeOrder (Json.obj
        [("handling_cost_ex_tax", Json.str "9.99"),
         ("handling_cost_inc_tax", Json.str "9.99"),
         ("handling_cost_tax", Json.str "9.99"),
         ("shipping_cost_ex_tax", Json.str "9.99"),
         ("shipping_cost_inc_tax", Json.str "9.99"),
         ("shipping_cost_tax", Json.str "9.99"),
         ("subtotal_ex_tax", Json.str "9.99"),
         ("subtotal_inc_tax", Json.str "9.99"),
         ("subtotal_tax", Json.str "9.99"),
         ("total_ex_tax", Json.str "9.99"),
         ("total_inc_tax", Json.str "9.99"),
         ("total_tax", Json.str "9.99"),
         ("base_shipping_cost", Json.str "9.99"),
         ("discount_amount", Json.str "9.99"),
         ("counpon_discount", Json.str "9.99")])).HandlingCostExTax = "9.99" ∧
      (decodeOrder (Json.obj
        [("handling_cost_ex_tax", Json.str "9.99"),
         ("handling_cost_inc_tax", Json.str "9.99"),
         ("handling_cost_tax", Json.str "9.99"),
         ("shipping_cost_ex_tax", Json.str "9.99"),
         ("shipping_cost_inc_tax", Json.str "9.99"),
         ("shipping_cost_tax", Json.str "9.99"),
         ("subtotal_ex_tax", Json.str "9.99"),
         ("subtotal_inc_tax", Json.str "9.99"),
         ("subtotal_tax", Json.str "9.99"),
         ("total_ex_tax", Json.str "9.99"),
         ("total_inc_tax", Json.str "9.99"),
         ("total_tax", Json.str "9.99"),
         ("base_shipping_cost", Json.str "9.99"),
         ("discount_amount", Json.str "9.99"),
         ("counpon_discount", Json.str "9.99")])).CouponDiscount = "9.99" :=
  ⟨(monetary_fields_decoded_verbatim _ "9.99").1 rfl,
   (monetary_fields_decoded_verbatim _
     "9.99").2.2.2.2.2.2.2.2.2.2.2.2.2.2 rfl⟩

/-- C10: `Order.CouponDiscount` is populated from the misspelled JSON key
`counpon_discount`; a response that carries only the correctly spelled
`coupon_discount` key leaves the field at its zero value "". -/
theorem coupon_discount_read_from_misspelled_key (fs : List (String × Json))
    (s : String) :
    (jsonLookup fs "counpon_discount" = some (Json.str s) →
      (decodeOrder (Json.obj fs)).CouponDiscount = s) ∧
    (jsonLookup fs "counpon_discount" = none →
      jsonLookup fs "coupon_discount" = some (Json.str s) →
      (decodeOrder (Json.obj fs)).CouponDiscount = "") := by
  constructor
  · intro h
    simp [decodeOrder, jStr, h]
  · intro h1 _
    simp [decodeOrder, jStr, h1]

/-- Witness for C10: the correctly spelled key is ignored, the misspelled
one is honored. -/
theorem coupon_discount_read_from_misspelled_key_witness :
    (decodeOrder (Json.obj [("coupon_discount", Json.str "5.00")])).CouponDiscount
        = "" ∧
      (decodeOrder (Json.obj [("counpon_discount", Json.str "5.00")])).CouponDiscount
        = "5.00" :=
  ⟨(coupon_discount_read_from_misspelled_key
      [("coupon_discount", Json.str "5.00")] "5.00").2 rfl rfl,
   (coupon_discount_read_from_misspelled_key
      [("counpon_discount", Json.str "5.00")] "5.00").1 rfl⟩
